import Mathlib

/-!
Verification of the SkyLink collision-detection and alert-prioritization core.

This file gives a shallow embedding, in Lean 4, of the algorithmic core of the
SkyLink repository and proves the specification claims about it:

* `skylink/collision_module/collision_detection.py` —
  `detect_collisions`, `get_collision_summary`,
  `calculate_vertical_distance` (the geodesic horizontal-distance primitive is
  abstracted as a function parameter, see below);
* `skylink/drone_alerts/alert_translator.py` — `DroneAlertTranslator`
  (`_get_danger_level`, `_get_priority`, `translate_plane_to_drone_alert`,
  `process_multiple_alerts`);
* `skylink/dashboard/app.py` — `PilotDashboardService.get_collision_threats`
  (the tiered multi-threshold detector and its merge/sort logic).

Modelling conventions:

* Python floats are modelled as rationals (`ℚ`).  The geometric great-circle
  distance (geopy's `geodesic` / the translator's Haversine formula) is a real
  trigonometric computation; every theorem below is independent of the actual
  distance values, so the horizontal-distance function is passed as an explicit
  parameter (`hdist`, resp. `dist`) instead of being fixed to one formula.
* pandas DataFrames are modelled as a column-name list (the schema) together
  with a list of rows; a row is an association list from column names to
  values, and a null/NaN cell is modelled as an absent key.
* Python `raise` is modelled with `Except`; the `ValueError` messages of
  `detect_collisions` carry the list of missing columns, so the error type
  records that list structurally.
* `round(x, n)` is modelled as round-half-to-even on rationals (Python's
  rounding rule, ignoring binary-representation artifacts); no claim below
  depends on the tie-breaking direction.
* Wall-clock fields (`alert_id`, `timestamp`), display strings (`guidance`,
  `color_code`) and the trigonometric `bearing` / `relative_position` display
  fields are outside the embedding and are not used by any claim.
-/

namespace SkyLink

/-- Round-half-to-even for rationals: models Python's `round` to an integer. -/
def roundHalfEven (q : ℚ) : ℤ :=
  let f := ⌊q⌋
  let r := q - (f : ℚ)
  if r < 1/2 then f
  else if 1/2 < r then f + 1
  else if f % 2 = 0 then f else f + 1

/-- Models Python's `round(q, n)` (round to `n` decimal places). -/
def roundTo (q : ℚ) (n : ℕ) : ℚ :=
  (roundHalfEven (q * 10 ^ n) : ℚ) / 10 ^ n

/-! ### Danger levels (`drone_alerts/alert_translator.py`)

The five danger levels returned (as strings) by
`DroneAlertTranslator._get_danger_level`. -/

/-- The danger-level strings `CRITICAL`/`HIGH`/`MEDIUM`/`LOW`/`SAFE`. -/
inductive DangerLevel where
  | CRITICAL
  | HIGH
  | MEDIUM
  | LOW
  | SAFE
deriving DecidableEq, Repr

/-- The `danger_thresholds` dict set up in `DroneAlertTranslator.__init__`. -/
structure DangerThresholds where
  critical : ℚ
  high : ℚ
  medium : ℚ
  low : ℚ
deriving DecidableEq, Repr

/-- The reference default thresholds (`0.5 / 1.0 / 2.0 / 5.0` km). -/
def defaultThresholds : DangerThresholds :=
  { critical := 1/2, high := 1, medium := 2, low := 5 }

/-- `DroneAlertTranslator._get_danger_level`: the ascending threshold ladder. -/
def get_danger_level (t : DangerThresholds) (distance : ℚ) : DangerLevel :=
  if distance ≤ t.critical then .CRITICAL
  else if distance ≤ t.high then .HIGH
  else if distance ≤ t.medium then .MEDIUM
  else if distance ≤ t.low then .LOW
  else .SAFE

/-- `DroneAlertTranslator._get_priority`: the priority lookup table
(`1` = most severe).  The table is total on the five levels, so the Python
dict-default `5` is unreachable. -/
def get_priority : DangerLevel → ℤ
  | .CRITICAL => 1
  | .HIGH => 2
  | .MEDIUM => 3
  | .LOW => 4
  | .SAFE => 5

/-! ### The alert translator (`process_multiple_alerts`) -/

/-- The plane dicts consumed by `translate_plane_to_drone_alert`. -/
structure PlaneData where
  callsign : String
  latitude : ℚ
  longitude : ℚ
  altitude : ℚ
  velocity : ℚ
  heading : ℚ
deriving DecidableEq, Repr

/-- The drone dicts consumed by `translate_plane_to_drone_alert`. -/
structure DroneData where
  drone_id : String
  latitude : ℚ
  longitude : ℚ
  altitude : ℚ
deriving DecidableEq, Repr

/-- The alert dict built by `translate_plane_to_drone_alert` (omitting the
wall-clock `alert_id`/`timestamp` and the display-only guidance/color
strings, which no claim mentions). -/
structure TranslatedAlert where
  danger_level : DangerLevel
  distance_km : ℚ
  plane_callsign : String
  plane_altitude : ℚ
  drone_id : String
  drone_altitude : ℚ
  priority : ℤ
deriving DecidableEq, Repr

/-- `DroneAlertTranslator.translate_plane_to_drone_alert`.  The Haversine
distance `_calculate_distance` is abstracted as the parameter `dist`. -/
def translate_plane_to_drone_alert (dist : PlaneData → DroneData → ℚ)
    (t : DangerThresholds) (plane : PlaneData) (drone : DroneData) :
    TranslatedAlert :=
  let d := dist plane drone
  let lvl := get_danger_level t d
  { danger_level := lvl
    distance_km := roundTo d 2
    plane_callsign := plane.callsign
    plane_altitude := plane.altitude
    drone_id := drone.drone_id
    drone_altitude := drone.altitude
    priority := get_priority lvl }

/-- The per-drone summary dict built inside `process_multiple_alerts`. -/
structure DroneSummary where
  drone_id : String
  latitude : ℚ
  longitude : ℚ
  altitude : ℚ
  alerts : List TranslatedAlert
  alert_count : ℕ
  highest_priority : DangerLevel
deriving DecidableEq, Repr

/-- `DroneAlertTranslator.process_multiple_alerts`: for each drone, translate
every plane, keep only non-`SAFE` alerts, sort them by priority (Python's
`list.sort` is a stable merge sort), and record the summary. -/
def process_multiple_alerts (dist : PlaneData → DroneData → ℚ)
    (t : DangerThresholds) (drone_data : List DroneData)
    (plane_data : List PlaneData) : List DroneSummary :=
  drone_data.map (fun drone =>
    let drone_alerts :=
      (plane_data.map (fun plane =>
        translate_plane_to_drone_alert dist t plane drone)).filter
        (fun a => decide (a.danger_level ≠ DangerLevel.SAFE))
    let sorted := drone_alerts.mergeSort (fun a b => decide (a.priority ≤ b.priority))
    { drone_id := drone.drone_id
      latitude := drone.latitude
      longitude := drone.longitude
      altitude := drone.altitude
      alerts := sorted
      alert_count := sorted.length
      highest_priority :=
        match sorted with
        | [] => DangerLevel.SAFE
        | a :: _ => a.danger_level })

/-! ### DataFrames (`collision_module/collision_detection.py`)

A pandas DataFrame is modelled as its column schema plus a list of rows; a row
is an association list from column name to cell value, a null/NaN cell being an
absent key.  Cell values are either numbers or strings. -/

/-- A cell value of an input DataFrame. -/
inductive Val where
  | num (q : ℚ)
  | str (s : String)
deriving DecidableEq, Repr

/-- A DataFrame row: column name to (non-null) cell value. -/
abbrev Row := List (String × Val)

/-- Look up a column's value in a row (`none` = null/absent). -/
def colVal (r : Row) (c : String) : Option Val :=
  (r.find? (fun p => p.1 == c)).map (·.2)

/-- Look up a column expected to hold a number.  A string cell behaves like the
Python code does on a malformed numeric value: the per-pair computation fails
and the pair is skipped (see `pair_alert`). -/
def numAt (r : Row) (c : String) : Option ℚ :=
  match colVal r c with
  | some (.num q) => some q
  | _ => none

/-- A pandas DataFrame: column schema plus rows.  The `cellsInCols` field is
the pandas data-model invariant that every cell belongs to a schema column;
in particular the rows of a zero-column frame carry no cells. -/
structure DataFrame where
  cols : List String
  rows : List Row
  cellsInCols : ∀ r ∈ rows, ∀ kv ∈ r, kv.1 ∈ cols

/-- pandas `DataFrame.empty`: true exactly when one of the axes has length
zero — no rows or no columns. -/
def DataFrame.empty (df : DataFrame) : Bool :=
  df.rows.isEmpty || df.cols.isEmpty

/-- The `required_plane_cols` list of `detect_collisions`. -/
def requiredPlaneCols : List String :=
  ["icao24", "latitude", "longitude", "baro_altitude"]

/-- The `required_drone_cols` list of `detect_collisions`. -/
def requiredDroneCols : List String :=
  ["drone_id", "latitude", "longitude", "altitude"]

/-- Does the row have a (non-null) value in every listed column? -/
def hasAll (cs : List String) (r : Row) : Bool :=
  cs.all (fun c => (colVal r c).isSome)

/-- `DataFrame.dropna(subset=cs)`: drop every row with a null in one of the
listed columns. -/
def dropna (cs : List String) (rows : List Row) : List Row :=
  rows.filter (hasAll cs)

/-- The alert dict appended by `detect_collisions` for a violating pair. -/
structure CollisionAlert where
  drone_id : Val
  plane_icao24 : Val
  horizontal_distance : ℚ
  vertical_distance : ℚ
  drone_lat : ℚ
  drone_lon : ℚ
  plane_lat : ℚ
  plane_lon : ℚ
  drone_altitude : ℚ
  plane_altitude : ℚ
  callsign : Val
  drone_speed : Val
  plane_velocity : Val
deriving DecidableEq, Repr

/-- `calculate_vertical_distance`: absolute altitude difference. -/
def calculate_vertical_distance (altitude1 altitude2 : ℚ) : ℚ :=
  |altitude1 - altitude2|

/-- The body of the inner pair loop of `detect_collisions`: compute both
distances for one (plane, drone) pair and emit the alert iff both thresholds
hold (inclusively).  Returns `none` when no alert is emitted — either because
a threshold fails, or because a mandatory cell is non-numeric, in which case
the Python code raises inside the per-pair `try` (a malformed altitude) or
gets the `inf` sentinel distance (a malformed coordinate) and in both cases
emits nothing for the pair.  `hdist` abstracts
`calculate_horizontal_distance`'s geodesic computation. -/
def pair_alert (hdist : ℚ → ℚ → ℚ → ℚ → ℚ) (h_threshold v_threshold : ℚ)
    (p d : Row) : Option CollisionAlert :=
  match numAt p "latitude", numAt p "longitude", numAt p "baro_altitude",
      numAt d "latitude", numAt d "longitude", numAt d "altitude",
      colVal p "icao24", colVal d "drone_id" with
  | some plat, some plon, some palt, some dlat, some dlon, some dalt,
      some pid, some did =>
    let h_distance := hdist plat plon dlat dlon
    let v_distance := calculate_vertical_distance palt dalt
    if h_distance ≤ h_threshold ∧ v_distance ≤ v_threshold then
      some
        { drone_id := did
          plane_icao24 := pid
          horizontal_distance := roundTo h_distance 3
          vertical_distance := roundTo v_distance 2
          drone_lat := dlat
          drone_lon := dlon
          plane_lat := plat
          plane_lon := plon
          drone_altitude := dalt
          plane_altitude := palt
          callsign := (colVal p "callsign").getD (.str "N/A")
          drone_speed := (colVal d "speed").getD (.str "N/A")
          plane_velocity := (colVal p "velocity").getD (.str "N/A") }
    else none
  | _, _, _, _, _, _, _, _ => none

/-- The `ValueError`s of `detect_collisions`, carrying the list of missing
column names that the f-string message interpolates. -/
inductive DetectError where
  | missingPlaneCols (cols : List String)
  | missingDroneCols (cols : List String)
deriving DecidableEq, Repr

/-- The observable outcome of a successful `detect_collisions` call: the alert
list plus the cleaned-batch sizes printed by the
`"Processing N planes and M drones..."` message (`none` when the early
empty-input return skips that message). -/
structure DetectOutput where
  alerts : List CollisionAlert
  processed : Option (ℕ × ℕ)
deriving DecidableEq, Repr

/-- `detect_collisions(planes_df, drones_df, h_threshold, v_threshold)`. -/
def detect_collisions (hdist : ℚ → ℚ → ℚ → ℚ → ℚ)
    (planes_df drones_df : DataFrame) (h_threshold v_threshold : ℚ) :
    Except DetectError DetectOutput :=
  if planes_df.empty || drones_df.empty then
    .ok { alerts := [], processed := none }
  else
    let missing_plane_cols :=
      requiredPlaneCols.filter (fun c => !(planes_df.cols.contains c))
    if missing_plane_cols ≠ [] then .error (.missingPlaneCols missing_plane_cols)
    else
      let missing_drone_cols :=
        requiredDroneCols.filter (fun c => !(drones_df.cols.contains c))
      if missing_drone_cols ≠ [] then .error (.missingDroneCols missing_drone_cols)
      else
        let planes_clean := dropna requiredPlaneCols planes_df.rows
        let drones_clean := dropna requiredDroneCols drones_df.rows
        .ok
          { alerts :=
              planes_clean.flatMap (fun p =>
                drones_clean.filterMap (pair_alert hdist h_threshold v_threshold p))
            processed := some (planes_clean.length, drones_clean.length) }

/-! ### Alert summary (`get_collision_summary`) -/

/-- The summary dict of `get_collision_summary`. -/
structure CollisionSummary where
  total_alerts : ℕ
  unique_drones : ℕ
  unique_planes : ℕ
  avg_horizontal_distance : ℚ
  avg_vertical_distance : ℚ
  min_horizontal_distance : ℚ
  min_vertical_distance : ℚ
deriving DecidableEq, Repr

/-- `get_collision_summary(alerts)`: all-zero summary on an empty list,
counts/averages/minima otherwise (pandas `nunique`, `mean`, `min`). -/
def get_collision_summary (alerts : List CollisionAlert) : CollisionSummary :=
  match alerts with
  | [] =>
    { total_alerts := 0
      unique_drones := 0
      unique_planes := 0
      avg_horizontal_distance := 0
      avg_vertical_distance := 0
      min_horizontal_distance := 0
      min_vertical_distance := 0 }
  | a :: rest =>
    let hs := (a :: rest).map (·.horizontal_distance)
    let vs := (a :: rest).map (·.vertical_distance)
    { total_alerts := (a :: rest).length
      unique_drones := ((a :: rest).map (·.drone_id)).dedup.length
      unique_planes := ((a :: rest).map (·.plane_icao24)).dedup.length
      avg_horizontal_distance := roundTo (hs.sum / (hs.length : ℚ)) 3
      avg_vertical_distance := roundTo (vs.sum / (vs.length : ℚ)) 2
      min_horizontal_distance :=
        roundTo ((rest.map (·.horizontal_distance)).foldl min a.horizontal_distance) 3
      min_vertical_distance :=
        roundTo ((rest.map (·.vertical_distance)).foldl min a.vertical_distance) 2 }

/-! ### Tiered detection (`dashboard/app.py`, `get_collision_threats`)

`PilotDashboardService.get_collision_threats` runs `detect_collisions` once per
threat level against the same candidate set, merges the per-tier alerts so that
the first tier to claim a drone id wins, and finally sorts by
`(risk_order[risk_level], horizontal_distance)`.  The `risk_order` dict has no
key for the real-mode `"advisory"` tier, which the embedding models with an
`Except`-ed `KeyError`. -/

/-- One entry of the `threat_levels` list. -/
structure Tier where
  name : String
  h_threshold : ℚ
  v_threshold : ℚ
deriving DecidableEq, Repr

/-- The test-mode `threat_levels` list. -/
def testThreatLevels : List Tier :=
  [{ name := "critical", h_threshold := 1/10, v_threshold := 30 },
   { name := "high", h_threshold := 3/10, v_threshold := 50 },
   { name := "medium", h_threshold := 1/2, v_threshold := 100 },
   { name := "low", h_threshold := 1, v_threshold := 150 }]

/-- The real-mode `threat_levels` list (note the fifth, `"advisory"` tier). -/
def realThreatLevels : List Tier :=
  [{ name := "critical", h_threshold := 1/20, v_threshold := 25 },
   { name := "high", h_threshold := 1/5, v_threshold := 40 },
   { name := "medium", h_threshold := 2/5, v_threshold := 75 },
   { name := "low", h_threshold := 4/5, v_threshold := 120 },
   { name := "advisory", h_threshold := 3/2, v_threshold := 200 }]

/-- The `current_aircraft` dict as used by `get_collision_threats`. -/
structure Aircraft where
  icao24 : String
  callsign : String
  latitude : ℚ
  longitude : ℚ
  altitude : ℚ
  speed : ℚ
deriving DecidableEq, Repr

/-- One element of the `nearby_drones` list returned by `get_nearby_drones`
(`distance` is the upstream-computed range in nautical miles). -/
structure NearbyDrone where
  drone_id : String
  latitude : ℚ
  longitude : ℚ
  altitude : ℚ
  speed : ℚ
  heading : ℚ
  distance : ℚ
deriving DecidableEq, Repr

/-- The single-row plane DataFrame `current_plane_df` built in
`get_collision_threats`. -/
def planeRow (a : Aircraft) : Row :=
  [("icao24", .str a.icao24), ("callsign", .str a.callsign),
   ("latitude", .num a.latitude), ("longitude", .num a.longitude),
   ("baro_altitude", .num a.altitude), ("velocity", .num a.speed)]

/-- See `planeRow`. -/
def planeDf (a : Aircraft) : DataFrame :=
  { cols := ["icao24", "callsign", "latitude", "longitude", "baro_altitude",
             "velocity"]
    rows := [planeRow a]
    cellsInCols := by
      intro r hr kv hkv
      rw [List.mem_singleton] at hr
      subst hr
      simp only [planeRow, List.mem_cons, List.not_mem_nil, or_false] at hkv
      rcases hkv with rfl | rfl | rfl | rfl | rfl | rfl <;> simp }

/-- One row of the `nearby_drones_df` DataFrame built in
`get_collision_threats`. -/
def droneRow (c : NearbyDrone) : Row :=
  [("drone_id", .str c.drone_id), ("latitude", .num c.latitude),
   ("longitude", .num c.longitude), ("altitude", .num c.altitude),
   ("speed", .num c.speed), ("heading", .num c.heading),
   ("time_step", .num 1), ("timestamp", .str "2025-10-12 12:00:00")]

/-- See `droneRow`. -/
def dronesDf (cs : List NearbyDrone) : DataFrame :=
  { cols := ["drone_id", "latitude", "longitude", "altitude", "speed",
             "heading", "time_step", "timestamp"]
    rows := cs.map droneRow
    cellsInCols := by
      intro r hr kv hkv
      obtain ⟨c, -, rfl⟩ := List.mem_map.mp hr
      simp only [droneRow, List.mem_cons, List.not_mem_nil, or_false] at hkv
      rcases hkv with rfl | rfl | rfl | rfl | rfl | rfl | rfl | rfl <;> simp }

/-- The threat dict built per alert in `get_collision_threats` (omitting the
trigonometric `bearing`/`relative_position` display fields, which no claim
mentions; the `type` field is the constant `'drone'`). -/
structure Threat where
  id : Val
  latitude : ℚ
  longitude : ℚ
  altitude : ℚ
  horizontal_distance : ℚ
  vertical_distance : ℚ
  risk_level : String
  distance_nm : ℚ
  drone_speed : ℚ
  drone_heading : ℚ
deriving DecidableEq, Repr

/-- Build one threat dict from an alert at a given tier, looking the drone up
in `nearby_drones` for the extra telemetry fields (Python's
`next((d for d in nearby_drones if d['drone_id'] == alert['drone_id']), {})`
followed by `.get(..., 0)` defaults). -/
def mkThreat (cs : List NearbyDrone) (t : Tier) (a : CollisionAlert) : Threat :=
  let drone_data := cs.find? (fun d => Val.str d.drone_id == a.drone_id)
  { id := a.drone_id
    latitude := a.drone_lat
    longitude := a.drone_lon
    altitude := a.drone_altitude
    horizontal_distance := a.horizontal_distance
    vertical_distance := a.vertical_distance
    risk_level := t.name
    distance_nm := (drone_data.map (·.distance)).getD 0
    drone_speed := (drone_data.map (·.speed)).getD 0
    drone_heading := (drone_data.map (·.heading)).getD 0 }

/-- The alert list produced for one tier: the `detect_collisions` call inside
the tier loop of `get_collision_threats`.  The error branch is unreachable for
these fixed-schema frames (`tierAlertList_eq` below). -/
def tierAlertList (hdist : ℚ → ℚ → ℚ → ℚ → ℚ) (a : Aircraft)
    (cs : List NearbyDrone) (t : Tier) : List CollisionAlert :=
  match detect_collisions hdist (planeDf a) (dronesDf cs) t.h_threshold
      t.v_threshold with
  | .ok o => o.alerts
  | .error _ => []

/-- The inner alert loop of `get_collision_threats`: append a threat for each
alert whose drone id has not already been claimed. -/
def addThreats (cs : List NearbyDrone) (t : Tier) :
    List Threat → List CollisionAlert → List Threat
  | acc, [] => acc
  | acc, al :: rest =>
    if acc.any (fun th => th.id == al.drone_id) then
      addThreats cs t acc rest
    else
      addThreats cs t (acc ++ [mkThreat cs t al]) rest

/-- The outer tier loop of `get_collision_threats`: process the tiers from
most to least severe, accumulating `all_threats`. -/
def mergeTiers (hdist : ℚ → ℚ → ℚ → ℚ → ℚ) (a : Aircraft)
    (cs : List NearbyDrone) : List Threat → List Tier → List Threat
  | acc, [] => acc
  | acc, t :: ts =>
    mergeTiers hdist a cs (addThreats cs t acc (tierAlertList hdist a cs t)) ts

/-- The `risk_order` dict used as the sort key (`none` models a missing key,
on which Python raises `KeyError`). -/
def riskOrder : String → Option ℕ
  | "critical" => some 0
  | "high" => some 1
  | "medium" => some 2
  | "low" => some 3
  | _ => none

/-- The lexicographic comparison realized by the sort key
`(risk_order[risk_level], horizontal_distance)`.  Only invoked when every
risk level has a `risk_order` entry (otherwise the sort raises first). -/
def threatLe (x y : Threat) : Bool :=
  match riskOrder x.risk_level, riskOrder y.risk_level with
  | some i, some j =>
    decide (i < j ∨ (i = j ∧ x.horizontal_distance ≤ y.horizontal_distance))
  | _, _ => true

/-- `PilotDashboardService.get_collision_threats`, given the already-computed
`nearby_drones` list `cs`.  Returns `.error level` to model the `KeyError`
raised by `risk_order[x['risk_level']]` when a threat's risk level has no
entry in the dict. -/
def get_collision_threats (hdist : ℚ → ℚ → ℚ → ℚ → ℚ) (tiers : List Tier)
    (a : Aircraft) (cs : List NearbyDrone) : Except String (List Threat) :=
  if cs.isEmpty then .ok []
  else
    let all_threats := mergeTiers hdist a cs [] tiers
    match all_threats.find? (fun th => (riskOrder th.risk_level).isNone) with
    | some th => .error th.risk_level
    | none => .ok (all_threats.mergeSort threatLe)

/-! ### Decidability of call outcomes -/

/-- Decidable equality of call outcomes, for evaluating the embedding on
concrete inputs. -/
instance {ε α : Type} [DecidableEq ε] [DecidableEq α] :
    DecidableEq (Except ε α) := fun x y =>
  match x, y with
  | .ok a, .ok b =>
    if h : a = b then .isTrue (by rw [h]) else .isFalse (by simp [h])
  | .ok _, .error _ => .isFalse (by simp)
  | .error _, .ok _ => .isFalse (by simp)
  | .error e, .error f =>
    if h : e = f then .isTrue (by rw [h]) else .isFalse (by simp [h])

/-! ### Concrete example data

Small concrete batches used to evaluate the embedding on explicit inputs. -/

/-- A constant stand-in for the geodesic distance: every pair is 0.25 km
apart. -/
def exHdist : ℚ → ℚ → ℚ → ℚ → ℚ := fun _ _ _ _ => 1/4

/-- A plane row with all mandatory fields present. -/
def exPlaneRow : Row :=
  [("icao24", .str "p1"), ("latitude", .num 40), ("longitude", .num (-74)),
   ("baro_altitude", .num 200)]

/-- A drone row with all mandatory fields present. -/
def exDroneRow : Row :=
  [("drone_id", .str "d1"), ("latitude", .num 40), ("longitude", .num (-74)),
   ("altitude", .num 190)]

/-- A single-plane batch with a complete schema. -/
def exPlanes : DataFrame :=
  { cols := requiredPlaneCols, rows := [exPlaneRow]
    cellsInCols := by with_unfolding_all decide }

/-- A single-drone batch with a complete schema. -/
def exDrones : DataFrame :=
  { cols := requiredDroneCols, rows := [exDroneRow]
    cellsInCols := by with_unfolding_all decide }

/-- The alert `detect_collisions exHdist exPlanes exDrones (1/2) 100` emits
for the pair `(exPlaneRow, exDroneRow)`. -/
def exAlert : CollisionAlert :=
  { drone_id := .str "d1", plane_icao24 := .str "p1",
    horizontal_distance := 1/4, vertical_distance := 10,
    drone_lat := 40, drone_lon := -74, plane_lat := 40, plane_lon := -74,
    drone_altitude := 190, plane_altitude := 200,
    callsign := .str "N/A", drone_speed := .str "N/A",
    plane_velocity := .str "N/A" }

/-- The fully empty frame: no columns (so every required column is absent)
and no rows. -/
def emptyFrame : DataFrame := { cols := [], rows := [], cellsInCols := by simp }

/-- A non-empty plane batch whose schema lacks the `latitude` column. -/
def exPlanesNoLat : DataFrame :=
  { cols := ["icao24", "longitude", "baro_altitude"]
    rows := [[("icao24", .str "p1"), ("longitude", .num (-74)),
              ("baro_altitude", .num 200)]]
    cellsInCols := by with_unfolding_all decide }

/-- A plane row without its `latitude` cell (a null in a mandatory field). -/
def nullLatRow (i : ℕ) : Row :=
  [("icao24", .str (toString i)), ("longitude", .num (-74)),
   ("baro_altitude", .num 1000)]

/-- A complete plane row (indexed id, altitude 1000 m). -/
def fullRow (i : ℕ) : Row :=
  [("icao24", .str (toString i)), ("latitude", .num 40),
   ("longitude", .num (-74)), ("baro_altitude", .num 1000)]

/-- A batch of 10 plane rows of which 2 have a null `latitude`. -/
def planes10 : DataFrame :=
  { cols := requiredPlaneCols
    rows := [fullRow 1, fullRow 2, nullLatRow 3, fullRow 4, fullRow 5,
             nullLatRow 6, fullRow 7, fullRow 8, fullRow 9, fullRow 10]
    cellsInCols := by with_unfolding_all decide }

/-- A single-drone batch at altitude 0 m (so the 1000 m plane rows are
vertically far away). -/
def drones1 : DataFrame :=
  { cols := requiredDroneCols
    rows := [[("drone_id", .str "d1"), ("latitude", .num 40),
              ("longitude", .num (-74)), ("altitude", .num 0)]]
    cellsInCols := by with_unfolding_all decide }

/-- A current aircraft for the tiered detector. -/
def exAircraft : Aircraft :=
  { icao24 := "abc123", callsign := "TEST1", latitude := 40, longitude := -74,
    altitude := 100, speed := 50 }

/-- A nearby drone at the aircraft's altitude. -/
def advDrone : NearbyDrone :=
  { drone_id := "DRONE_9", latitude := 40, longitude := -74, altitude := 100,
    speed := 10, heading := 90, distance := 1/2 }

/-- A stand-in distance function that reads the drone latitude as km/100, so
different drones sit at different horizontal distances. -/
def exHdistByLat : ℚ → ℚ → ℚ → ℚ → ℚ := fun _ _ dlat _ => dlat / 100

/-- A drone 0.05 km away under `exHdistByLat`: matches every test tier. -/
def tierDrone1 : NearbyDrone :=
  { drone_id := "DRONE_1", latitude := 5, longitude := -74, altitude := 100,
    speed := 10, heading := 90, distance := 1/2 }

/-- A drone 0.9 km away under `exHdistByLat`: matches only the `low` test
tier. -/
def tierDrone2 : NearbyDrone :=
  { drone_id := "DRONE_2", latitude := 90, longitude := -74, altitude := 100,
    speed := 10, heading := 90, distance := 1/2 }

/-- A stand-in for the translator's Haversine distance: the plane's latitude
read as km. -/
def exDist : PlaneData → DroneData → ℚ := fun p _ => p.latitude

/-- A drone dict for the translator. -/
def exDroneData : DroneData :=
  { drone_id := "d1", latitude := 40, longitude := -74, altitude := 100 }

/-- Three planes at translator distances 1.5 / 0.3 / 0.7 km under `exDist`:
danger levels MEDIUM (priority 3), CRITICAL (1), HIGH (2) in evaluation
order, as in the spec's per-drone sort example. -/
def exPlanesT : List PlaneData :=
  [{ callsign := "A1", latitude := 3/2, longitude := 0, altitude := 300,
     velocity := 100, heading := 0 },
   { callsign := "A2", latitude := 3/10, longitude := 0, altitude := 300,
     velocity := 100, heading := 0 },
   { callsign := "A3", latitude := 7/10, longitude := 0, altitude := 300,
     velocity := 100, heading := 0 }]

/-- The summary `process_multiple_alerts` produces for `exDroneData` against
`exPlanesT`. -/
def exSummary : DroneSummary :=
  (process_multiple_alerts exDist defaultThresholds [exDroneData]
    exPlanesT).head (by simp [process_multiple_alerts])

/-! ## General lemmas -/

/-- A filtered list and its complement partition the original list's
length. -/
theorem length_filter_add_length_filter_not {α : Type} (l : List α)
    (p : α → Bool) :
    (l.filter p).length + (l.filter (fun a => !(p a))).length = l.length := by
  induction l with
  | nil => rfl
  | cons a t ih =>
    cases hpa : p a <;> simp [List.filter, hpa, ← ih] <;> omega

/-- A stable sort by an integer key preserves, for each key value, the
subsequence of elements with that key: sorting commutes with filtering on one
key value. -/
theorem mergeSort_stable_filter_key {α : Type} (key : α → ℤ) (l : List α)
    (v : ℤ) :
    ((l.mergeSort (fun a b => decide (key a ≤ key b))).filter
        (fun a => decide (key a = v))) =
      l.filter (fun a => decide (key a = v)) := by
  have htrans : ∀ a b c : α, (decide (key a ≤ key b)) = true →
      (decide (key b ≤ key c)) = true → (decide (key a ≤ key c)) = true := by
    intro a b c hab hbc
    rw [decide_eq_true_eq] at *
    exact le_trans hab hbc
  have htot : ∀ a b : α,
      ((decide (key a ≤ key b)) || (decide (key b ≤ key a))) = true := by
    intro a b
    simp only [Bool.or_eq_true, decide_eq_true_eq]
    exact le_total _ _
  have hc_pairwise : (l.filter (fun a => decide (key a = v))).Pairwise
      (fun a b => (decide (key a ≤ key b)) = true) := by
    refine List.pairwise_of_forall_mem_list ?_
    intro a ha b hb
    have ha2 := List.of_mem_filter ha
    have hb2 := List.of_mem_filter hb
    rw [decide_eq_true_eq] at *
    rw [ha2, hb2]
  have h1 : (l.filter (fun a => decide (key a = v))).Sublist
      (l.mergeSort (fun a b => decide (key a ≤ key b))) :=
    List.sublist_mergeSort htrans htot hc_pairwise (List.filter_sublist l)
  have h2 : (l.filter (fun a => decide (key a = v))).Sublist
      ((l.mergeSort (fun a b => decide (key a ≤ key b))).filter
        (fun a => decide (key a = v))) := by
    have h3 := List.Sublist.filter (fun a => decide (key a = v)) h1
    rwa [List.filter_eq_self.mpr (fun a ha => List.mem_filter.mp ha |>.2)] at h3
  have hperm : ((l.mergeSort (fun a b => decide (key a ≤ key b))).filter
      (fun a => decide (key a = v))).Perm
        (l.filter (fun a => decide (key a = v))) :=
    List.Perm.filter _ (List.mergeSort_perm l _)
  exact (List.Sublist.eq_of_length h2 hperm.length_eq.symm).symm

/-- A row holding a value in column `c` has a cell whose key is `c`. -/
theorem exists_key_of_colVal_isSome (r : Row) (c : String)
    (h : (colVal r c).isSome) : ∃ kv ∈ r, kv.1 = c := by
  unfold colVal at h
  rcases hf : r.find? (fun p => p.1 == c) with _ | kv
  · rw [hf] at h
    simp at h
  · have hmem := List.mem_of_find?_eq_some hf
    have hpred := List.find?_some hf
    exact ⟨kv, hmem, by simpa using hpred⟩

/-- A frame one of whose cleaned rows survived a `dropna` on a non-empty
column subset is non-empty in the pandas sense: it has that row, and the
subset's columns appear among its cells, hence in its schema. -/
theorem not_empty_of_mem_dropna (df : DataFrame) (cs : List String)
    (c : String) (hc : c ∈ cs) (r : Row) (hr : r ∈ dropna cs df.rows) :
    df.empty = false := by
  rw [dropna, List.mem_filter] at hr
  have hrows : df.rows ≠ [] := List.ne_nil_of_mem hr.1
  have hsome : (colVal r c).isSome := by
    have := List.all_eq_true.mp hr.2 c hc
    simpa using this
  obtain ⟨kv, hkv, hkey⟩ := exists_key_of_colVal_isSome r c hsome
  have hcol : c ∈ df.cols := hkey ▸ df.cellsInCols r hr.1 kv hkv
  have hcols : df.cols ≠ [] := List.ne_nil_of_mem hcol
  simp [DataFrame.empty, List.isEmpty_iff, hrows, hcols]

/-! ## Lemmas about the tier-merge loops -/

/-- Membership of a drone id after `addThreats`: the accumulator's ids plus
the processed alerts' ids. -/
theorem mem_map_id_addThreats (cs : List NearbyDrone) (t : Tier) :
    ∀ (as : List CollisionAlert) (acc : List Threat) (x : Val),
      (x ∈ (addThreats cs t acc as).map (fun th => th.id) ↔
        x ∈ acc.map (fun th => th.id) ∨ x ∈ as.map (fun al => al.drone_id)) := by
  intro as
  induction as with
  | nil => intro acc x; simp [addThreats]
  | cons al rest ih =>
    intro acc x
    rw [addThreats]
    by_cases hany : acc.any (fun th => th.id == al.drone_id)
    · rw [if_pos hany, ih]
      rw [List.any_eq_true] at hany
      obtain ⟨th, hth, hbeq⟩ := hany
      have hide : th.id = al.drone_id := by simpa using hbeq
      have hmem : al.drone_id ∈ acc.map (fun th => th.id) :=
        List.mem_map.mpr ⟨th, hth, hide⟩
      simp only [List.map_cons, List.mem_cons]
      constructor
      · rintro (h | h)
        · exact Or.inl h
        · exact Or.inr (Or.inr h)
      · rintro (h | rfl | h)
        · exact Or.inl h
        · exact Or.inl hmem
        · exact Or.inr h
    · rw [if_neg hany, ih]
      have hid : (mkThreat cs t al).id = al.drone_id := rfl
      simp only [List.map_append, List.map_cons, List.map_nil, List.mem_append,
        List.mem_cons, List.mem_singleton, hid, List.not_mem_nil, or_false]
      tauto

/-- `addThreats` preserves distinctness of the collected drone ids. -/
theorem nodup_map_id_addThreats (cs : List NearbyDrone) (t : Tier) :
    ∀ (as : List CollisionAlert) (acc : List Threat),
      ((acc.map (fun th => th.id)).Nodup) →
      ((addThreats cs t acc as).map (fun th => th.id)).Nodup := by
  intro as
  induction as with
  | nil => intro acc h; simpa [addThreats] using h
  | cons al rest ih =>
    intro acc h
    rw [addThreats]
    by_cases hany : acc.any (fun th => th.id == al.drone_id)
    · rw [if_pos hany]; exact ih acc h
    · rw [if_neg hany]
      refine ih (acc ++ [mkThreat cs t al]) ?_
      have hnot : al.drone_id ∉ acc.map (fun th => th.id) := by
        intro hmem
        obtain ⟨th, hth, hide⟩ := List.mem_map.mp hmem
        exact hany (List.any_eq_true.mpr ⟨th, hth, by simp [hide]⟩)
      have hid : (mkThreat cs t al).id = al.drone_id := rfl
      simp only [List.map_append, List.map_cons, List.map_nil,
        List.nodup_append, List.nodup_cons, List.not_mem_nil, not_false_iff,
        List.nodup_nil, and_true, List.Disjoint, hid]
      refine ⟨h, trivial, ?_⟩
      intro x hx hx2
      rw [List.mem_singleton] at hx2
      exact hnot (hx2 ▸ hx)

/-- Where a threat in the output of `addThreats` comes from: either it was
already in the accumulator, or it is a fresh threat of this tier whose id was
previously unclaimed and appears among the processed alerts. -/
theorem mem_addThreats_cases (cs : List NearbyDrone) (t : Tier) :
    ∀ (as : List CollisionAlert) (acc : List Threat) (th : Threat),
      th ∈ addThreats cs t acc as →
      th ∈ acc ∨ (th.risk_level = t.name ∧
        th.id ∉ acc.map (fun x => x.id) ∧
        ∃ al ∈ as, al.drone_id = th.id) := by
  intro as
  induction as with
  | nil => intro acc th h; exact Or.inl (by simpa [addThreats] using h)
  | cons al rest ih =>
    intro acc th h
    rw [addThreats] at h
    by_cases hany : acc.any (fun th => th.id == al.drone_id)
    · rw [if_pos hany] at h
      rcases ih acc th h with h2 | ⟨hr, hid, al2, hal2, heq⟩
      · exact Or.inl h2
      · exact Or.inr ⟨hr, hid, al2, List.mem_cons_of_mem _ hal2, heq⟩
    · rw [if_neg hany] at h
      have hnot : al.drone_id ∉ acc.map (fun x => x.id) := by
        intro hmem
        obtain ⟨th2, hth2, hide⟩ := List.mem_map.mp hmem
        exact hany (List.any_eq_true.mpr ⟨th2, hth2, by simp [hide]⟩)
      rcases ih (acc ++ [mkThreat cs t al]) th h with h2 | ⟨hr, hid, al2, hal2, heq⟩
      · rcases List.mem_append.mp h2 with h3 | h3
        · exact Or.inl h3
        · rw [List.mem_singleton] at h3
          subst h3
          exact Or.inr ⟨rfl, hnot, al, List.mem_cons_self _ _, rfl⟩
      · refine Or.inr ⟨hr, ?_, al2, List.mem_cons_of_mem _ hal2, heq⟩
        intro hmem
        exact hid (by simp [List.map_append, hmem])

/-- The tier loop never collects the same drone id twice. -/
theorem nodup_map_id_mergeTiers (hdist : ℚ → ℚ → ℚ → ℚ → ℚ) (a : Aircraft)
    (cs : List NearbyDrone) :
    ∀ (ts : List Tier) (acc : List Threat),
      ((acc.map (fun th => th.id)).Nodup) →
      ((mergeTiers hdist a cs acc ts).map (fun th => th.id)).Nodup := by
  intro ts
  induction ts with
  | nil => intro acc h; simpa [mergeTiers] using h
  | cons t rest ih =>
    intro acc h
    rw [mergeTiers]
    exact ih _ (nodup_map_id_addThreats cs t _ acc h)

/-- Where a threat in the output of the tier loop comes from: either it was
already in the accumulator, or its id was unclaimed when the loop started and
it is classified at the first processed tier that matches the id. -/
theorem mem_mergeTiers_cases (hdist : ℚ → ℚ → ℚ → ℚ → ℚ) (a : Aircraft)
    (cs : List NearbyDrone) :
    ∀ (ts : List Tier) (acc : List Threat) (th : Threat),
      th ∈ mergeTiers hdist a cs acc ts →
      th ∈ acc ∨ (th.id ∉ acc.map (fun x => x.id) ∧
        ∃ i, ∃ hi : i < ts.length,
          th.risk_level = (ts.get ⟨i, hi⟩).name ∧
          (∃ al ∈ tierAlertList hdist a cs (ts.get ⟨i, hi⟩),
            al.drone_id = th.id) ∧
          ∀ j, ∀ hj : j < ts.length, j < i →
            ¬∃ al ∈ tierAlertList hdist a cs (ts.get ⟨j, hj⟩),
              al.drone_id = th.id) := by
  intro ts
  induction ts with
  | nil => intro acc th h; exact Or.inl (by simpa [mergeTiers] using h)
  | cons t rest ih =>
    intro acc th h
    rw [mergeTiers] at h
    rcases ih _ th h with h2 | ⟨hid, i, hi, hname, hmatch, hleast⟩
    · rcases mem_addThreats_cases cs t _ acc th h2 with h3 | ⟨hr, hnotin, al, hal, heq⟩
      · exact Or.inl h3
      · refine Or.inr ⟨hnotin, 0, by simp, hr, ⟨al, hal, heq⟩, ?_⟩
        intro j hj hj0
        exact absurd hj0 (Nat.not_lt_zero j)
    · rw [mem_map_id_addThreats] at hid
      push_neg at hid
      refine Or.inr ⟨hid.1, i + 1, by simpa using hi, hname, hmatch, ?_⟩
      intro j hj hji
      cases j with
      | zero =>
        rintro ⟨al, hal, heq⟩
        exact hid.2 (List.mem_map.mpr ⟨al, hal, heq⟩)
      | succ k =>
        have hk : k < rest.length := by simpa using hj
        exact hleast k hk (by omega)

/-- Specialization of `mem_mergeTiers_cases` to the empty accumulator the
tier loop starts from. -/
theorem mergeTiers_start_empty_cases (hdist : ℚ → ℚ → ℚ → ℚ → ℚ)
    (a : Aircraft) (cs : List NearbyDrone) (ts : List Tier) (th : Threat)
    (h : th ∈ mergeTiers hdist a cs [] ts) :
    ∃ i, ∃ hi : i < ts.length,
      th.risk_level = (ts.get ⟨i, hi⟩).name ∧
      (∃ al ∈ tierAlertList hdist a cs (ts.get ⟨i, hi⟩), al.drone_id = th.id) ∧
      ∀ j, ∀ hj : j < ts.length, j < i →
        ¬∃ al ∈ tierAlertList hdist a cs (ts.get ⟨j, hj⟩),
          al.drone_id = th.id := by
  rcases mem_mergeTiers_cases hdist a cs ts [] th h with h2 | ⟨-, h3⟩
  · exact absurd h2 (List.not_mem_nil th)
  · exact h3

/-- On the dashboard's fixed-schema frames, the per-tier `detect_collisions`
call never raises and its alerts are exactly the per-candidate pair alerts:
the `.error` fallback branch of `tierAlertList` is dead code. -/
theorem tierAlertList_eq (hdist : ℚ → ℚ → ℚ → ℚ → ℚ) (a : Aircraft)
    (cs : List NearbyDrone) (t : Tier) :
    tierAlertList hdist a cs t =
      cs.filterMap (fun c => pair_alert hdist t.h_threshold t.v_threshold
        (planeRow a) (droneRow c)) := by
  unfold tierAlertList detect_collisions
  rcases cs with _ | ⟨c, cs2⟩
  · simp [dronesDf, DataFrame.empty]
  · have hne : ((planeDf a).empty || (dronesDf (c :: cs2)).empty) = false := by
      simp [planeDf, dronesDf, DataFrame.empty]
    rw [hne]
    have hmp : requiredPlaneCols.filter
        (fun col => !((planeDf a).cols.contains col)) = [] := by
      simp [planeDf, requiredPlaneCols]
    have hmd : requiredDroneCols.filter
        (fun col => !((dronesDf (c :: cs2)).cols.contains col)) = [] := by
      simp [dronesDf, requiredDroneCols]
    simp only [hmp, hmd, Bool.false_eq_true, if_false, ne_eq,
      not_true_eq_false, reduceIte]
    have hpc : dropna requiredPlaneCols (planeDf a).rows = [planeRow a] := by
      simp [dropna, planeDf, hasAll, requiredPlaneCols, colVal, planeRow]
    have hdc : dropna requiredDroneCols (dronesDf (c :: cs2)).rows =
        (c :: cs2).map droneRow := by
      unfold dropna dronesDf
      rw [List.filter_eq_self.mpr]
      intro r hr
      obtain ⟨c2, hc2, rfl⟩ := List.mem_map.mp hr
      simp [hasAll, requiredDroneCols, colVal, droneRow]
    rw [hpc, hdc]
    rw [show [planeRow a] = planeRow a :: [] from rfl, List.flatMap_cons,
      List.flatMap_nil, List.append_nil, List.filterMap_map]
    rfl

/-! ## Claims -/

/-- C1: for every (plane, drone) pair of the two cleaned batches with numeric
mandatory fields, `detect_collisions` emits a collision alert for that pair if
and only if the pair's horizontal distance is at most `h_threshold` and its
vertical distance is at most `v_threshold`, both bounds inclusive — in
particular a pair exactly at both thresholds is included. -/
theorem claim_C1_emit_iff_thresholds (hdist : ℚ → ℚ → ℚ → ℚ → ℚ)
    (planes_df drones_df : DataFrame) (h_threshold v_threshold : ℚ)
    (out : DetectOutput)
    (hok : detect_collisions hdist planes_df drones_df h_threshold v_threshold =
      .ok out)
    (p d : Row)
    (hp : p ∈ dropna requiredPlaneCols planes_df.rows)
    (hd : d ∈ dropna requiredDroneCols drones_df.rows)
    (plat plon palt dlat dlon dalt : ℚ)
    (hplat : numAt p "latitude" = some plat)
    (hplon : numAt p "longitude" = some plon)
    (hpalt : numAt p "baro_altitude" = some palt)
    (hdlat : numAt d "latitude" = some dlat)
    (hdlon : numAt d "longitude" = some dlon)
    (hdalt : numAt d "altitude" = some dalt) :
    (∃ a, pair_alert hdist h_threshold v_threshold p d = some a ∧
        a ∈ out.alerts) ↔
      (hdist plat plon dlat dlon ≤ h_threshold ∧
        calculate_vertical_distance palt dalt ≤ v_threshold) := by
  have hpm := List.mem_filter.mp hp
  have hdm := List.mem_filter.mp hd
  have hpid : ∃ v, colVal p "icao24" = some v := by
    have := List.all_eq_true.mp hpm.2 "icao24" (by simp [requiredPlaneCols])
    simpa [Option.isSome_iff_exists] using this
  have hdid : ∃ v, colVal d "drone_id" = some v := by
    have := List.all_eq_true.mp hdm.2 "drone_id" (by simp [requiredDroneCols])
    simpa [Option.isSome_iff_exists] using this
  obtain ⟨pid, hpid⟩ := hpid
  obtain ⟨did, hdid⟩ := hdid
  have hpair : pair_alert hdist h_threshold v_threshold p d =
      if hdist plat plon dlat dlon ≤ h_threshold ∧
          calculate_vertical_distance palt dalt ≤ v_threshold then
        some
          { drone_id := did, plane_icao24 := pid,
            horizontal_distance := roundTo (hdist plat plon dlat dlon) 3,
            vertical_distance := roundTo (calculate_vertical_distance palt dalt) 2,
            drone_lat := dlat, drone_lon := dlon, plane_lat := plat,
            plane_lon := plon, drone_altitude := dalt, plane_altitude := palt,
            callsign := (colVal p "callsign").getD (.str "N/A"),
            drone_speed := (colVal d "speed").getD (.str "N/A"),
            plane_velocity := (colVal p "velocity").getD (.str "N/A") }
      else none := by
    unfold pair_alert
    rw [hplat, hplon, hpalt, hdlat, hdlon, hdalt, hpid, hdid]
  constructor
  · rintro ⟨a, hpa, -⟩
    rw [hpair] at hpa
    by_cases hcond : hdist plat plon dlat dlon ≤ h_threshold ∧
        calculate_vertical_distance palt dalt ≤ v_threshold
    · exact hcond
    · rw [if_neg hcond] at hpa
      exact absurd hpa (by simp)
  · intro hcond
    have halerts : out.alerts =
        (dropna requiredPlaneCols planes_df.rows).flatMap (fun q =>
          (dropna requiredDroneCols drones_df.rows).filterMap
            (pair_alert hdist h_threshold v_threshold q)) := by
      unfold detect_collisions at hok
      by_cases hemp : (planes_df.empty || drones_df.empty) = true
      · exfalso
        have h1 := not_empty_of_mem_dropna planes_df requiredPlaneCols
          "latitude" (by simp [requiredPlaneCols]) p hp
        have h2 := not_empty_of_mem_dropna drones_df requiredDroneCols
          "latitude" (by simp [requiredDroneCols]) d hd
        simp [h1, h2] at hemp
      · rw [Bool.not_eq_true] at hemp
        rw [hemp] at hok
        simp only [Bool.false_eq_true, if_false] at hok
        by_cases h1 : requiredPlaneCols.filter
            (fun c => !(planes_df.cols.contains c)) = []
        · by_cases h2 : requiredDroneCols.filter
              (fun c => !(drones_df.cols.contains c)) = []
          · rw [if_neg (by simpa using h1), if_neg (by simpa using h2)] at hok
            cases hok
            rfl
          · rw [if_neg (by simpa using h1), if_pos (by simpa using h2)] at hok
            cases hok
        · rw [if_pos (by simpa using h1)] at hok
          cases hok
    have hsome : pair_alert hdist h_threshold v_threshold p d ≠ none := by
      rw [hpair, if_pos hcond]
      simp
    obtain ⟨a, ha⟩ := Option.ne_none_iff_exists.mp hsome
    refine ⟨a, ha.symm, ?_⟩
    rw [halerts, List.mem_flatMap]
    refine ⟨p, hp, ?_⟩
    rw [List.mem_filterMap]
    exact ⟨d, hd, ha.symm⟩

/-- C1 witness: `claim_C1_emit_iff_thresholds` evaluated on the concrete
single-plane / single-drone batches `exPlanes` / `exDrones` at thresholds
0.5 km / 100 m, where each hypothesis is discharged by evaluation. -/
theorem claim_C1_witness :
    (∃ a, pair_alert exHdist (1/2) 100 exPlaneRow exDroneRow = some a ∧
        a ∈ (DetectOutput.mk [exAlert] (some (1, 1))).alerts) ↔
      (exHdist 40 (-74) 40 (-74) ≤ 1/2 ∧
        calculate_vertical_distance 200 190 ≤ 100) :=
  claim_C1_emit_iff_thresholds exHdist exPlanes exDrones (1/2) 100
    { alerts := [exAlert], processed := some (1, 1) }
    (by with_unfolding_all decide)
    exPlaneRow exDroneRow
    (by with_unfolding_all decide) (by with_unfolding_all decide)
    40 (-74) 200 40 (-74) 190
    (by with_unfolding_all decide) (by with_unfolding_all decide)
    (by with_unfolding_all decide) (by with_unfolding_all decide)
    (by with_unfolding_all decide) (by with_unfolding_all decide)

/-- C2: with the reference default thresholds, `_get_danger_level` classifies
a distance `d` as CRITICAL exactly on `d ≤ 0.5`, HIGH exactly on
`0.5 < d ≤ 1`, MEDIUM exactly on `1 < d ≤ 2`, LOW exactly on `2 < d ≤ 5` and
SAFE exactly on `5 < d`, and `_get_priority` maps
CRITICAL/HIGH/MEDIUM/LOW/SAFE to 1/2/3/4/5. -/
theorem claim_C2_danger_ladder_and_priority (d : ℚ) :
    (get_danger_level defaultThresholds d = .CRITICAL ↔ d ≤ 1/2) ∧
    (get_danger_level defaultThresholds d = .HIGH ↔ 1/2 < d ∧ d ≤ 1) ∧
    (get_danger_level defaultThresholds d = .MEDIUM ↔ 1 < d ∧ d ≤ 2) ∧
    (get_danger_level defaultThresholds d = .LOW ↔ 2 < d ∧ d ≤ 5) ∧
    (get_danger_level defaultThresholds d = .SAFE ↔ 5 < d) ∧
    get_priority .CRITICAL = 1 ∧ get_priority .HIGH = 2 ∧
    get_priority .MEDIUM = 3 ∧ get_priority .LOW = 4 ∧
    get_priority .SAFE = 5 := by
  unfold get_danger_level defaultThresholds
  refine ⟨?_, ?_, ?_, ?_, ?_, rfl, rfl, rfl, rfl, rfl⟩ <;>
    split_ifs with h1 h2 h3 h4 <;> simp_all <;> intros <;> linarith

/-- C3: every summary produced by `process_multiple_alerts` has its alerts
sorted by non-decreasing priority, keeps only non-SAFE alerts, sets
`highest_priority` to the danger level of the first alert (SAFE when there is
none), and — by stability of the sort — keeps alerts of equal priority in
their original evaluation order (for each priority value, filtering the
sorted list gives exactly the filtered pre-sort list). -/
theorem claim_C3_summary_invariant (dist : PlaneData → DroneData → ℚ)
    (t : DangerThresholds) (drone_data : List DroneData)
    (plane_data : List PlaneData) (s : DroneSummary)
    (hs : s ∈ process_multiple_alerts dist t drone_data plane_data) :
    s.alerts.Pairwise (fun a b => a.priority ≤ b.priority) ∧
    (∀ a ∈ s.alerts, a.danger_level ≠ DangerLevel.SAFE) ∧
    (s.highest_priority = match s.alerts with
      | [] => DangerLevel.SAFE
      | a :: _ => a.danger_level) ∧
    (∃ drone ∈ drone_data, ∀ v : ℤ,
      s.alerts.filter (fun a => decide (a.priority = v)) =
        ((plane_data.map (fun plane =>
            translate_plane_to_drone_alert dist t plane drone)).filter
          (fun a => decide (a.danger_level ≠ DangerLevel.SAFE))).filter
          (fun a => decide (a.priority = v))) := by
  rw [process_multiple_alerts, List.mem_map] at hs
  obtain ⟨drone, hdr, hsum⟩ := hs
  subst hsum
  refine ⟨?_, ?_, rfl, drone, hdr, ?_⟩
  · have htrans : ∀ a b c : TranslatedAlert,
        (decide (a.priority ≤ b.priority)) = true →
        (decide (b.priority ≤ c.priority)) = true →
        (decide (a.priority ≤ c.priority)) = true := by
      intro a b c hab hbc
      rw [decide_eq_true_eq] at *
      exact le_trans hab hbc
    have htot : ∀ a b : TranslatedAlert,
        ((decide (a.priority ≤ b.priority)) ||
          (decide (b.priority ≤ a.priority))) = true := by
      intro a b
      simp only [Bool.or_eq_true, decide_eq_true_eq]
      exact le_total _ _
    have h := List.sorted_mergeSort htrans htot
      ((plane_data.map (fun plane =>
          translate_plane_to_drone_alert dist t plane drone)).filter
        (fun a => decide (a.danger_level ≠ DangerLevel.SAFE)))
    exact h.imp (fun hab => of_decide_eq_true hab)
  · intro a ha
    have ha2 : a ∈ (plane_data.map (fun plane =>
        translate_plane_to_drone_alert dist t plane drone)).filter
        (fun x => decide (x.danger_level ≠ DangerLevel.SAFE)) :=
      (List.mergeSort_perm _ _).subset ha
    exact of_decide_eq_true (List.mem_filter.mp ha2).2
  · intro v
    exact mergeSort_stable_filter_key (fun a : TranslatedAlert => a.priority) _ v

/-- C3 witness: `claim_C3_summary_invariant` evaluated on one drone against
three planes whose translator alerts come out at priorities 3, 1, 2 (the
spec's per-drone sort example). -/
theorem claim_C3_witness :
    exSummary.alerts.Pairwise (fun a b => a.priority ≤ b.priority) ∧
    (∀ a ∈ exSummary.alerts, a.danger_level ≠ DangerLevel.SAFE) ∧
    (exSummary.highest_priority = match exSummary.alerts with
      | [] => DangerLevel.SAFE
      | a :: _ => a.danger_level) ∧
    (∃ drone ∈ [exDroneData], ∀ v : ℤ,
      exSummary.alerts.filter (fun a => decide (a.priority = v)) =
        ((exPlanesT.map (fun plane =>
            translate_plane_to_drone_alert exDist defaultThresholds plane
              drone)).filter
          (fun a => decide (a.danger_level ≠ DangerLevel.SAFE))).filter
          (fun a => decide (a.priority = v))) :=
  claim_C3_summary_invariant exDist defaultThresholds [exDroneData] exPlanesT
    exSummary (List.head_mem _)

/-- C4: in a successful `get_collision_threats` run, each candidate drone id
appears in the output at most once, and every output threat is classified
under the first tier of the (most-severe-first) tier list whose thresholds it
satisfies: it matches its own tier's detector run and matches no earlier
tier's. -/
theorem claim_C4_first_tier_wins (hdist : ℚ → ℚ → ℚ → ℚ → ℚ)
    (tiers : List Tier) (a : Aircraft) (cs : List NearbyDrone)
    (threats : List Threat)
    (hok : get_collision_threats hdist tiers a cs = .ok threats) :
    ((threats.map (fun th => th.id)).Nodup) ∧
    ∀ th ∈ threats, ∃ i, ∃ hi : i < tiers.length,
      th.risk_level = (tiers.get ⟨i, hi⟩).name ∧
      (∃ al ∈ tierAlertList hdist a cs (tiers.get ⟨i, hi⟩),
        al.drone_id = th.id) ∧
      ∀ j, ∀ hj : j < tiers.length, j < i →
        ¬∃ al ∈ tierAlertList hdist a cs (tiers.get ⟨j, hj⟩),
          al.drone_id = th.id := by
  unfold get_collision_threats at hok
  by_cases hcs : cs.isEmpty
  · rw [if_pos hcs] at hok
    cases hok
    exact ⟨List.nodup_nil, by simp⟩
  · rw [if_neg hcs] at hok
    rcases hfind : (mergeTiers hdist a cs [] tiers).find?
        (fun th => (riskOrder th.risk_level).isNone) with _ | th0
    · have hthreats : threats =
          (mergeTiers hdist a cs [] tiers).mergeSort threatLe := by
        simp only [hfind] at hok
        exact (Except.ok.inj hok).symm
      subst hthreats
      have hperm : ((mergeTiers hdist a cs [] tiers).mergeSort threatLe).Perm
          (mergeTiers hdist a cs [] tiers) := List.mergeSort_perm _ _
      constructor
      · exact ((hperm.map (fun th => th.id)).nodup_iff).mpr
          (nodup_map_id_mergeTiers hdist a cs tiers [] List.nodup_nil)
      · intro th hth
        exact mergeTiers_start_empty_cases hdist a cs tiers th (hperm.subset hth)
    · simp [hfind] at hok

/-- C4 witness: `claim_C4_first_tier_wins` evaluated on the test-mode tier
list with two drones, one matching every tier (claimed by `critical`) and one
matching only the loosest tier (claimed by `low`). -/
theorem claim_C4_witness :
    ((((mergeTiers exHdistByLat exAircraft [tierDrone1, tierDrone2] []
        testThreatLevels).mergeSort threatLe).map (fun th => th.id)).Nodup) ∧
    ∀ th ∈ (mergeTiers exHdistByLat exAircraft [tierDrone1, tierDrone2] []
        testThreatLevels).mergeSort threatLe,
      ∃ i, ∃ hi : i < testThreatLevels.length,
        th.risk_level = (testThreatLevels.get ⟨i, hi⟩).name ∧
        (∃ al ∈ tierAlertList exHdistByLat exAircraft [tierDrone1, tierDrone2]
            (testThreatLevels.get ⟨i, hi⟩), al.drone_id = th.id) ∧
        ∀ j, ∀ hj : j < testThreatLevels.length, j < i →
          ¬∃ al ∈ tierAlertList exHdistByLat exAircraft
              [tierDrone1, tierDrone2] (testThreatLevels.get ⟨j, hj⟩),
            al.drone_id = th.id :=
  claim_C4_first_tier_wins exHdistByLat testThreatLevels exAircraft
    [tierDrone1, tierDrone2] _ (by with_unfolding_all rfl)

/-- C5: `get_collision_summary` applied to the empty alert list returns the
vacuous summary: every numeric field (total, unique drones, unique planes,
average and minimum horizontal/vertical distances) is zero, with no error
value involved. -/
theorem claim_C5_empty_summary :
    (get_collision_summary []).total_alerts = 0 ∧
    (get_collision_summary []).unique_drones = 0 ∧
    (get_collision_summary []).unique_planes = 0 ∧
    (get_collision_summary []).avg_horizontal_distance = 0 ∧
    (get_collision_summary []).avg_vertical_distance = 0 ∧
    (get_collision_summary []).min_horizontal_distance = 0 ∧
    (get_collision_summary []).min_vertical_distance = 0 :=
  ⟨rfl, rfl, rfl, rfl, rfl, rfl, rfl⟩

/-- C6 counterexample: the claim fails as universally stated, because the
empty-batch early return of `detect_collisions` runs before schema
validation.  A plane batch with no columns at all — so the required
`latitude` column is absent — and no rows is silently answered with an empty
ok result instead of the claimed schema error. -/
theorem claim_C6_counterexample :
    "latitude" ∉ emptyFrame.cols ∧
    detect_collisions (fun _ _ _ _ => 0) emptyFrame exDrones 1 1 =
      .ok { alerts := [], processed := none } := by
  constructor
  · simp [emptyFrame]
  · with_unfolding_all decide

/-- C6 (amended): provided both batches are non-empty in the pandas sense
(`df.empty` false: at least one row and at least one column), a call with a
required column absent from either input batch fails with a `ValueError`
naming exactly the missing required columns (the plane batch is validated
first); no result is returned. -/
theorem claim_C6_schema_error (hdist : ℚ → ℚ → ℚ → ℚ → ℚ)
    (planes_df drones_df : DataFrame) (h_threshold v_threshold : ℚ)
    (missingP missingD : List String)
    (hmp : missingP = requiredPlaneCols.filter
      (fun c => !(planes_df.cols.contains c)))
    (hmd : missingD = requiredDroneCols.filter
      (fun c => !(drones_df.cols.contains c)))
    (hpe : planes_df.empty = false) (hde : drones_df.empty = false)
    (hmiss : missingP ≠ [] ∨ missingD ≠ []) :
    (∃ e, detect_collisions hdist planes_df drones_df h_threshold v_threshold =
        .error e ∧
      ((e = .missingPlaneCols missingP ∧ missingP ≠ []) ∨
        (e = .missingDroneCols missingD ∧ missingP = []))) ∧
    (∀ c, c ∈ missingP ↔ c ∈ requiredPlaneCols ∧ c ∉ planes_df.cols) ∧
    (∀ c, c ∈ missingD ↔ c ∈ requiredDroneCols ∧ c ∉ drones_df.cols) := by
  refine ⟨?_, ?_, ?_⟩
  · unfold detect_collisions
    have hne : (planes_df.empty || drones_df.empty) = false := by
      simp [hpe, hde]
    rw [hne]
    simp only [Bool.false_eq_true, if_false]
    by_cases hP : missingP = []
    · rcases hmiss with h | hD
      · exact absurd hP h
      · rw [← hmp, hP]
        simp only [ne_eq, not_true_eq_false, if_false, reduceIte]
        rw [← hmd]
        refine ⟨.missingDroneCols missingD, ?_, .inr ⟨rfl, by trivial⟩⟩
        simp [hD]
    · rw [← hmp]
      refine ⟨.missingPlaneCols missingP, ?_, .inl ⟨rfl, by trivial⟩⟩
      simp [hP]
  · intro c
    subst hmp
    simp [List.mem_filter]
  · intro c
    subst hmd
    simp [List.mem_filter]

/-- C6 witness: `claim_C6_schema_error` evaluated on a non-empty plane batch
whose schema lacks only `latitude`, against a schema-complete drone batch. -/
theorem claim_C6_witness :
    (∃ e, detect_collisions exHdist exPlanesNoLat exDrones 1 1 = .error e ∧
      ((e = .missingPlaneCols ["latitude"] ∧
          ("latitude" :: ([] : List String)) ≠ []) ∨
        (e = .missingDroneCols [] ∧
          ("latitude" :: ([] : List String)) = []))) ∧
    (∀ c, c ∈ (["latitude"] : List String) ↔
      c ∈ requiredPlaneCols ∧ c ∉ exPlanesNoLat.cols) ∧
    (∀ c, c ∈ ([] : List String) ↔ c ∈ requiredDroneCols ∧ c ∉ exDrones.cols) :=
  claim_C6_schema_error exHdist exPlanesNoLat exDrones 1 1 ["latitude"] []
    (by with_unfolding_all decide) (by with_unfolding_all decide)
    (by with_unfolding_all decide) (by with_unfolding_all decide)
    (Or.inl (by with_unfolding_all decide))

/-- C7 counterexample: on the claim's own 10-row example (2 rows with a null
latitude) the call does drop the 2 rows, but the count it reports is the
cleaned batch size 8 (together with the drone count 1) — the skip count 2 is
not reported anywhere in the observable outcome. -/
theorem claim_C7_counterexample :
    planes10.rows.length = 10 ∧
    (dropna requiredPlaneCols planes10.rows).length = 8 ∧
    detect_collisions (fun _ _ _ _ => 0) planes10 drones1 1 1 =
      .ok { alerts := [], processed := some (8, 1) } := by
  refine ⟨rfl, by with_unfolding_all decide, by with_unfolding_all decide⟩

/-- C7 (amended): for non-empty schema-complete batches, every row with a
null in a mandatory field is dropped before comparison (alerts arise only
from rows with all mandatory fields present) and the call reports the
cleaned batch sizes — the total row count minus the dropped-row count — not
the dropped-row count itself. -/
theorem claim_C7_row_drop_and_report (hdist : ℚ → ℚ → ℚ → ℚ → ℚ)
    (planes_df drones_df : DataFrame) (h_threshold v_threshold : ℚ)
    (hpn : planes_df.rows ≠ []) (hdn : drones_df.rows ≠ [])
    (hpc : requiredPlaneCols.filter (fun c => !(planes_df.cols.contains c)) = [])
    (hdc : requiredDroneCols.filter (fun c => !(drones_df.cols.contains c)) = []) :
    ∃ out, detect_collisions hdist planes_df drones_df h_threshold v_threshold =
        .ok out ∧
      out.processed = some
        (planes_df.rows.length -
          (planes_df.rows.filter (fun r => !(hasAll requiredPlaneCols r))).length,
         drones_df.rows.length -
          (drones_df.rows.filter (fun r => !(hasAll requiredDroneCols r))).length) ∧
      (∀ a ∈ out.alerts, ∃ p ∈ planes_df.rows, hasAll requiredPlaneCols p ∧
        ∃ d ∈ drones_df.rows, hasAll requiredDroneCols d ∧
          pair_alert hdist h_threshold v_threshold p d = some a) := by
  unfold detect_collisions
  have hpcols : planes_df.cols ≠ [] := by
    intro h
    have h2 : ¬(!(planes_df.cols.contains "icao24")) = true := by
      intro hcontra
      have h3 : "icao24" ∈ requiredPlaneCols.filter
          (fun c => !(planes_df.cols.contains c)) :=
        List.mem_filter.mpr ⟨by simp [requiredPlaneCols], hcontra⟩
      rw [hpc] at h3
      simp at h3
    rw [h] at h2
    simp at h2
  have hdcols : drones_df.cols ≠ [] := by
    intro h
    have h2 : ¬(!(drones_df.cols.contains "drone_id")) = true := by
      intro hcontra
      have h3 : "drone_id" ∈ requiredDroneCols.filter
          (fun c => !(drones_df.cols.contains c)) :=
        List.mem_filter.mpr ⟨by simp [requiredDroneCols], hcontra⟩
      rw [hdc] at h3
      simp at h3
    rw [h] at h2
    simp at h2
  have hne : (planes_df.empty || drones_df.empty) = false := by
    simp [DataFrame.empty, List.isEmpty_iff, hpn, hdn, hpcols, hdcols]
  rw [hne]
  simp only [Bool.false_eq_true, if_false, hpc, hdc, ne_eq, not_true_eq_false,
    reduceIte]
  refine ⟨_, rfl, ?_, ?_⟩
  · have h1 := length_filter_add_length_filter_not planes_df.rows
      (hasAll requiredPlaneCols)
    have h2 := length_filter_add_length_filter_not drones_df.rows
      (hasAll requiredDroneCols)
    unfold dropna
    simp only [Option.some.injEq, Prod.mk.injEq]
    constructor <;> omega
  · intro a ha
    rw [List.mem_flatMap] at ha
    obtain ⟨p, hp, ha⟩ := ha
    rw [List.mem_filterMap] at ha
    obtain ⟨d, hd, hpd⟩ := ha
    rw [dropna, List.mem_filter] at hp hd
    exact ⟨p, hp.1, hp.2, d, hd.1, hd.2, hpd⟩

/-- C7 witness: `claim_C7_row_drop_and_report` evaluated on the 10-row
batch with 2 null latitudes against a single-drone batch. -/
theorem claim_C7_witness :
    ∃ out, detect_collisions exHdist planes10 drones1 1 1 = .ok out ∧
      out.processed = some
        (planes10.rows.length -
          (planes10.rows.filter (fun r => !(hasAll requiredPlaneCols r))).length,
         drones1.rows.length -
          (drones1.rows.filter (fun r => !(hasAll requiredDroneCols r))).length) ∧
      (∀ a ∈ out.alerts, ∃ p ∈ planes10.rows, hasAll requiredPlaneCols p ∧
        ∃ d ∈ drones1.rows, hasAll requiredDroneCols d ∧
          pair_alert exHdist 1 1 p d = some a) :=
  claim_C7_row_drop_and_report exHdist planes10 drones1 1 1
    (by with_unfolding_all decide) (by with_unfolding_all decide)
    (by with_unfolding_all decide) (by with_unfolding_all decide)

/-- C9: the final sort of `get_collision_threats` does not succeed for every
configured tier.  In real mode, a drone 1.2 km from the aircraft at equal
altitude is classified under the fifth, `advisory` tier (1.5 km / 200 m),
and the sort-key lookup `risk_order[x['risk_level']]` then raises `KeyError`
because `risk_order` only maps critical/high/medium/low — modelled here as
the call returning the `KeyError` payload `"advisory"` instead of a threat
list. -/
theorem claim_C9_advisory_key_error :
    get_collision_threats (fun _ _ _ _ => 6/5) realThreatLevels exAircraft
      [advDrone] = .error "advisory" := by
  with_unfolding_all decide

/-- C10: with the reference thresholds, the danger classification is monotone
in distance — a smaller separation never gets a less severe (larger) priority
rank. -/
theorem claim_C10_classification_monotone (d1 d2 : ℚ) (h : d1 ≤ d2) :
    get_priority (get_danger_level defaultThresholds d1) ≤
      get_priority (get_danger_level defaultThresholds d2) := by
  unfold get_danger_level defaultThresholds get_priority
  split_ifs <;> simp_all <;> linarith

/-- C10 witness: `claim_C10_classification_monotone` evaluated at distances
1 km (HIGH, priority 2) and 3 km (LOW, priority 4). -/
theorem claim_C10_witness :
    get_priority (get_danger_level defaultThresholds 1) ≤
      get_priority (get_danger_level defaultThresholds 3) :=
  claim_C10_classification_monotone 1 3 (by with_unfolding_all decide)

end SkyLink
